import Mathlib

/-!
Shallow embedding of the terminal-service layer (`terminalService.js`,
with `terminalManager.js` as the spawner) and proofs about its claimed
properties.

Modelling conventions:
* JS `null`/`undefined` become `Option`; a thrown exception becomes an
  explicit `Bool` oracle parameter (`spawnThrows`, `resizeThrows`, ...)
  telling the model whether the underlying call throws at that point,
  and a `none`-valued result where the exception propagates.
* The single-threaded JS event loop is modelled by explicit step
  functions on a state record; asynchronous callbacks (`setTimeout`,
  `setImmediate`, pty events) are separate step functions that the
  environment may invoke in any order, which is exactly the
  interleaving freedom of the event loop.
* `console.log` / `console.error` calls are not observable and are
  dropped; `emit` calls are recorded in explicit event lists.
-/

namespace TerminalModel

/-- A signal delivered to the child process by `pty.kill`. -/
inductive Sig
  | sigterm
  | sigkill
deriving DecidableEq, Repr

/-- Shell profile as produced by `terminalManager.getAvailableShells`
(`{name, displayName, shell, args}`; only the fields the service layer
reads are kept). -/
structure ShellProfile where
  name : String
  displayName : String
deriving DecidableEq, Repr

/-- State of one `TerminalInstance` (terminalService.js lines 12-26):
`_id`, `_pty` (modelled by whether the handle is non-null), `_shellProfile`,
`_cwd`, `_cols`, `_rows`, `_isDisposed`.  The constructor hard-codes
`_cols = 80`, `_rows = 30`. -/
structure TerminalInstance where
  id : Nat
  ptyPresent : Bool
  shellProfile : Option ShellProfile
  cwd : String
  cols : Nat
  rows : Nat
  isDisposed : Bool
deriving DecidableEq, Repr

/-- Model of `TerminalInstance.write(data)` (lines 105-124).  Returns the new
instance state, whether an `error` notification was emitted, and whether
an asynchronous self-dispose was scheduled.  `writeThrows` says whether
`this._pty.write` throws; `brokenChannel` says whether the thrown error
is `ERR_STREAM_DESTROYED` / `EPIPE`. -/
def TerminalInstance.write (t : TerminalInstance) (_data : String)
    (writeThrows brokenChannel : Bool) :
    TerminalInstance × Bool × Bool :=
  if t.isDisposed || !t.ptyPresent then (t, false, false)
  else if writeThrows then (t, true, brokenChannel)
  else (t, false, false)

/-- Model of `TerminalInstance.resize(cols, rows)` (lines 129-150).  Note the
source assigns `this._cols = cols; this._rows = rows` BEFORE calling
`this._pty.resize(cols, rows)` inside the same `try` block, so the
stored dimensions are updated even when the pty resize throws.
Result components as in `write`. -/
def TerminalInstance.resize (t : TerminalInstance) (cols rows : Nat)
    (resizeThrows brokenChannel : Bool) :
    TerminalInstance × Bool × Bool :=
  if t.isDisposed || !t.ptyPresent then (t, false, false)
  else
    let t := { t with cols := cols, rows := rows }
    if resizeThrows then (t, true, brokenChannel)
    else (t, false, false)

/-- The object returned by `TerminalInstance.getState()` (lines 155-163):
`{id, shellProfile, cwd, cols, rows}`.  The source writes
`this._shellProfile?.name || null`, so an absent profile, and also an
empty-string name, become `null`. -/
structure TermState where
  id : Nat
  shellProfile : Option String
  cwd : String
  cols : Nat
  rows : Nat
deriving DecidableEq, Repr

/-- Model of `TerminalInstance.getState()` (lines 155-163). -/
def TerminalInstance.getState (t : TerminalInstance) : TermState :=
  { id := t.id
    shellProfile :=
      match t.shellProfile with
      | none => none
      | some p => if p.name = "" then none else some p.name
    cwd := t.cwd
    cols := t.cols
    rows := t.rows }

/-- The session-descriptor shape the specification document describes:
`{shellProfileName, cwd, cols, rows}` with no id field.  Modelled from
the spec's words (section 3, "Session descriptor"), for comparison with
`TerminalInstance.getState` which is translated from the source. -/
structure SpecSessionDescriptor where
  shellProfileName : Option String
  cwd : String
  cols : Nat
  rows : Nat
deriving DecidableEq, Repr

/-- The disposed-flag effect of `TerminalInstance.dispose()` on the
instance record (lines 168-173): an already-disposed instance is left
untouched, otherwise `_isDisposed` is set.  The process-killing /
listener-removal side effects of dispose are modelled by
`disposeW` on `Wire` below. -/
def TerminalInstance.dispose (t : TerminalInstance) : TerminalInstance :=
  if t.isDisposed then t else { t with isDisposed := true }

end TerminalModel

namespace TerminalModel

/-!
## Single-terminal event wiring

`Wire` tracks one created terminal together with the listener plumbing
that `TerminalInstance._setupPtyListeners` (lines 48-100) and
`TerminalService.createTerminal` (lines 343-373) install, plus the
escalation timer from `dispose` (lines 188-219) and the signals sent to
the process.  Each asynchronous entry point of the source is one step
function; the environment may apply them in any order.
-/

/-- Service-level events emitted by `TerminalService.emit`. -/
inductive SEv
  | terminalData (data : String)
  | terminalExit
  | terminalError
  | terminalClosed
deriving DecidableEq, Repr

/-- Event-loop-visible state of one created terminal and its wiring.
* `isDisposed` — the instance's `_isDisposed` flag;
* `ptyListenersActive` — the pty `onData` / `onExit` / `on('error')`
  subscriptions stored in `_disposables` (all removed together in
  dispose Step 3);
* `extHandlersAttached` — the service's `data` / `exit` / `error`
  forwarders stored in `terminal._handlers` (removed in dispose Step 1);
* `inRegistry` — `service._terminals.has(id)`;
* `timerArmed` — the `killTimeout` from dispose line 193 is pending;
* `kills` — signals successfully delivered by `this._pty.kill`;
* `events` — service-level events emitted so far;
* `pendingDispose` — a `setImmediate(() => this.dispose())` is queued. -/
structure Wire where
  isDisposed : Bool
  ptyListenersActive : Bool
  extHandlersAttached : Bool
  inRegistry : Bool
  timerArmed : Bool
  kills : List Sig
  events : List SEv
  pendingDispose : Bool
deriving DecidableEq, Repr

/-- State right after `createTerminal` returns: instance active, pty
listeners installed, service forwarders attached, id registered, no
timer, nothing emitted yet. -/
def initialWire : Wire :=
  { isDisposed := false
    ptyListenersActive := true
    extHandlersAttached := true
    inRegistry := true
    timerArmed := false
    kills := []
    events := []
    pendingDispose := false }

/-- Model of `TerminalInstance.dispose()` (lines 168-245) for a terminal with a
non-null `_pty`.  Steps, in source order:
guard on `_isDisposed` (169-171); set the flag (173); Step 1 remove the
external `_handlers` (176-185); Step 2 arm the 500ms `killTimeout`
(193-200) and send SIGTERM (203) — if `pty.kill('SIGTERM')` throws
(`sigtermThrows`), send SIGKILL immediately instead (210-211); note that
NOTHING in the source ever calls `clearTimeout` on `killTimeout` (it is
a local variable used exactly once), so the timer stays armed; Step 3
dispose every `_disposables` entry (222-229), removing the pty
listeners; Steps 4-5 remove remaining listeners (232-244). -/
def disposeW (sigtermThrows : Bool) (s : Wire) : Wire :=
  if s.isDisposed then s
  else
    let s := { s with isDisposed := true, extHandlersAttached := false }
    let s := { s with timerArmed := true }
    let s :=
      if sigtermThrows then { s with kills := s.kills ++ [Sig.sigkill] }
      else { s with kills := s.kills ++ [Sig.sigterm] }
    { s with ptyListenersActive := false }

/-- The `killTimeout` callback firing 500ms after dispose armed it
(lines 193-200): a `setTimeout` fires at most once, and the callback
sends SIGKILL via `this._pty.kill('SIGKILL')` (the `_pty` reference is
deliberately never nulled, line 240). -/
def timerFireW (s : Wire) : Wire :=
  if s.timerArmed then
    { s with timerArmed := false, kills := s.kills ++ [Sig.sigkill] }
  else s

/-- The pty `onExit` callback (lines 63-77) composed with the service
`exitHandler` (lines 350-355): the callback only runs while the
`onExit` subscription is alive; it is guarded by `!this._isDisposed`;
it emits the instance `exit` event, which reaches the service's
`exitHandler` only while `terminal._handlers` are attached; the
`exitHandler` emits `terminal-exit` only when the id is still in
`_terminals`, then deletes the id; finally the pty callback queues
`setImmediate(() => this.dispose())`. -/
def ptyExitW (s : Wire) : Wire :=
  if s.ptyListenersActive && !s.isDisposed then
    let s :=
      if s.extHandlersAttached then
        let s :=
          if s.inRegistry then { s with events := s.events ++ [SEv.terminalExit] }
          else s
        { s with inRegistry := false }
      else s
    { s with pendingDispose := true }
  else s

/-- The pty `onData` callback (lines 52-56) composed with the service
`dataHandler` (lines 344-348): runs only while the subscription is
alive and the instance is not disposed; `terminal-data` is emitted only
while the forwarder is attached and the id is registered. -/
def ptyDataW (data : String) (s : Wire) : Wire :=
  if s.ptyListenersActive && !s.isDisposed then
    if s.extHandlersAttached && s.inRegistry then
      { s with events := s.events ++ [SEv.terminalData data] }
    else s
  else s

/-- The pty `error` handler (lines 81-98) composed with the service
`errorHandler` (lines 357-361): same guards as data, but the registry
entry is not removed. -/
def ptyErrorW (s : Wire) : Wire :=
  if s.ptyListenersActive && !s.isDisposed then
    if s.extHandlersAttached && s.inRegistry then
      { s with events := s.events ++ [SEv.terminalError] }
    else s
  else s

/-- Model of `TerminalService.closeTerminal(id)` (lines 413-431), restricted to
the single wired terminal: when the id is registered, dispose the
instance, delete the registry entry, emit `terminal-closed`, return
true; otherwise return false. -/
def closeTerminalW (sigtermThrows : Bool) (s : Wire) : Wire × Bool :=
  if s.inRegistry then
    let s := disposeW sigtermThrows s
    ({ s with inRegistry := false, events := s.events ++ [SEv.terminalClosed] }, true)
  else (s, false)

/-- Run the queued `setImmediate(() => this.dispose())` if one is
pending (lines 69-71). -/
def runPendingW (sigtermThrows : Bool) (s : Wire) : Wire :=
  if s.pendingDispose then disposeW sigtermThrows { s with pendingDispose := false }
  else s

/-- Number of `terminal-exit` events emitted so far. -/
def countExit (s : Wire) : Nat :=
  s.events.countP (fun e => e = SEv.terminalExit)

/-- Number of `terminal-error` events emitted so far. -/
def countError (s : Wire) : Nat :=
  s.events.countP (fun e => e = SEv.terminalError)

end TerminalModel

namespace TerminalModel

/-!
## TerminalService registry model

`Service` mirrors the fields of `TerminalService` (lines 253-259):
`_terminals` (a JS `Map`, i.e. an insertion-ordered association list
with unique keys), `_nextTerminalId`, `_config`.  The configuration is
an opaque key-value passthrough.
-/

/-- Opaque configuration map. -/
abbrev Config := List (String × String)

/-- Registry state of `TerminalService`. -/
structure Service where
  terminals : List (Nat × TerminalInstance)
  nextTerminalId : Nat
  config : Config
deriving DecidableEq, Repr

/-- Host-supplied environment read by `createTerminal`:
`byName` models `terminalManager.getShellByProfile`, `defaultProfile`
models `terminalManager.getDefaultShellProfile`, `defaultCwd` models
`process.cwd()`. -/
structure Env where
  byName : String -> Option ShellProfile
  defaultProfile : Option ShellProfile
  defaultCwd : String

/-- Profile resolution at lines 315-317:
`profileName ? getShellByProfile(profileName) : getDefaultShellProfile()`.
JS truthiness makes an empty-string name fall back to the default. -/
def resolveShellProfile (env : Env) (profileName : Option String) :
    Option ShellProfile :=
  match profileName with
  | none => env.defaultProfile
  | some p => if p = "" then env.defaultProfile else env.byName p

/-- Working-directory resolution `cwd || process.cwd()` at line 312; JS truthiness makes the empty
string fall back as well. -/
def resolveCwd (env : Env) (cwd : Option String) : String :=
  match cwd with
  | none => env.defaultCwd
  | some c => if c = "" then env.defaultCwd else c

/-- Model of `TerminalService.createTerminal(profileName, cwd, options)`
(lines 309-387).  `spawnThrows` tells whether
`terminalManager.spawnShell` throws for this call.  Source order that
matters: `const terminalId = this._nextTerminalId++` runs FIRST
(line 311), so the counter is already advanced when the spawn throws;
the `catch` at line 383 logs and re-throws, so a throwing spawn leaves
nothing registered and propagates the error (result id `none`).
On success the new `TerminalInstance` (whose constructor hard-codes
`_cols = 80`, `_rows = 30`) is stored under the fresh id. -/
def Service.createTerminal (svc : Service) (env : Env) (spawnThrows : Bool)
    (profileName : Option String) (cwd : Option String) :
    Service × Option Nat :=
  let terminalId := svc.nextTerminalId
  let svc1 : Service := { svc with nextTerminalId := svc.nextTerminalId + 1 }
  if spawnThrows then (svc1, none)
  else
    let workingDir := resolveCwd env cwd
    let inst : TerminalInstance :=
      { id := terminalId
        ptyPresent := true
        shellProfile := resolveShellProfile env profileName
        cwd := workingDir
        cols := 80
        rows := 30
        isDisposed := false }
    ({ svc1 with terminals := svc1.terminals ++ [(terminalId, inst)] },
     some terminalId)

/-- Model of `TerminalService.getTerminal(terminalId)` (lines 392-394). -/
def Service.getTerminal (svc : Service) (terminalId : Nat) :
    Option TerminalInstance :=
  (svc.terminals.find? (fun p => p.1 = terminalId)).map (fun p => p.2)

/-- Model of `TerminalService.closeTerminal(terminalId)` (lines 413-431): when
the id is registered, the instance's `dispose()` runs and the entry is
deleted from `_terminals` in the same synchronous body, then
`terminal-closed` is emitted and `true` returned; otherwise `false`.
(The emitted event is observable in the `Wire` model; here the result
is the new registry state and the return value.) -/
def Service.closeTerminal (svc : Service) (terminalId : Nat) :
    Service × Bool :=
  match svc.terminals.find? (fun p => p.1 = terminalId) with
  | some _ =>
      ({ svc with
          terminals := svc.terminals.filter (fun p => !(p.1 = terminalId)) },
       true)
  | none => (svc, false)

/-- The snapshot returned by `TerminalService.getTerminalState()`
(lines 444-453): `{ terminals, config }`. -/
structure Snapshot where
  terminals : List TermState
  config : Config
deriving DecidableEq, Repr

/-- Model of `TerminalService.getTerminalState()` (lines 444-453): one
`getState()` descriptor per registered terminal, in `Map` iteration
(= insertion) order, plus the config. -/
def Service.getTerminalState (svc : Service) : Snapshot :=
  { terminals := svc.terminals.map (fun p => p.2.getState)
    config := svc.config }

/-- Shallow config merge `{ ...this._config, ...updates }`: a key of
`upd` wins over the same key of `base`. -/
def mergeConfig (base upd : Config) : Config :=
  base.filter (fun kv => !(upd.map Prod.fst).contains kv.1) ++ upd

/-- Input to `restoreTerminals`: a possibly-missing snapshot whose
`terminals` field may also be missing.  Each descriptor is paired with
the oracle telling whether the `createTerminal` call made for it throws
(a malformed or unspawnable descriptor). -/
structure RestoreInput where
  terminals : Option (List (TermState × Bool))
  config : Option Config

/-- Model of `TerminalService.restoreTerminals(state)` (lines 458-483): return
unchanged when the snapshot or its `terminals` field is missing; merge
`state.config` when present; then for each descriptor call
`createTerminal(shellProfile, cwd, {cols, rows})` inside a `try` whose
`catch` only logs — a throwing descriptor is skipped and the loop
continues with the remaining descriptors. -/
def Service.restoreTerminals (svc : Service) (env : Env)
    (state : Option RestoreInput) : Service :=
  match state with
  | none => svc
  | some st =>
    match st.terminals with
    | none => svc
    | some descs =>
      let svc :=
        match st.config with
        | some c => { svc with config := mergeConfig svc.config c }
        | none => svc
      descs.foldl
        (fun acc d =>
          (acc.createTerminal env d.2 d.1.shellProfile (some d.1.cwd)).1)
        svc

/-- One host-driven registry operation, for reasoning about arbitrary
interleavings of creations and closes. -/
inductive SvcOp
  | create (spawnThrows : Bool)
  | close (terminalId : Nat)

/-- Run a sequence of operations, collecting the id assigned by each
`createTerminal` call (line 311 assigns `this._nextTerminalId++` on
every call, throwing or not). -/
def Service.runOps (svc : Service) (env : Env) :
    List SvcOp -> Service × List Nat
  | [] => (svc, [])
  | SvcOp.create st :: rest =>
      let assigned := svc.nextTerminalId
      let svc1 := (svc.createTerminal env st none none).1
      let r := svc1.runOps env rest
      (r.1, assigned :: r.2)
  | SvcOp.close terminalId :: rest =>
      ((svc.closeTerminal terminalId).1).runOps env rest

end TerminalModel

namespace TerminalModel

/-- Projection of the code's persisted descriptor onto the shape the
spec document describes (dropping the extra `id` field). -/
def TermState.toSpecShape (d : TermState) : SpecSessionDescriptor :=
  { shellProfileName := d.shellProfile
    cwd := d.cwd
    cols := d.cols
    rows := d.rows }

/-- A concrete live instance used by concrete evaluations. -/
def sampleInst : TerminalInstance :=
  { id := 1, ptyPresent := true, shellProfile := none, cwd := "/home/u"
    cols := 80, rows := 30, isDisposed := false }

/-- The same instance after disposal. -/
def sampleDisposedInst : TerminalInstance :=
  { sampleInst with isDisposed := true }

/-- A concrete service holding `sampleInst` under id 1. -/
def sampleSvc : Service :=
  { terminals := [(1, sampleInst)], nextTerminalId := 2, config := [] }

/-- A concrete environment for evaluating `createTerminal`. -/
def sampleEnv : Env :=
  { byName := fun _ => none
    defaultProfile := some { name := "bash", displayName := "Bash" }
    defaultCwd := "/home/u" }

/-- A concrete `Wire` state with the instance already disposed (the
state produced by `disposeW false initialWire`). -/
def sampleDisposedWire : Wire :=
  { isDisposed := true
    ptyListenersActive := false
    extHandlersAttached := false
    inRegistry := true
    timerArmed := true
    kills := [Sig.sigterm]
    events := []
    pendingDispose := false }

/-- A concrete persisted descriptor used in restore scenarios. -/
def sampleDesc : TermState :=
  { id := 0, shellProfile := none, cwd := "/home/u", cols := 80, rows := 24 }

end TerminalModel

namespace TerminalModel

/-! ## Helper lemmas -/

/-- Dispose always leaves the `_isDisposed` flag set. -/
theorem disposeW_isDisposed (b : Bool) (t : Wire) :
    (disposeW b t).isDisposed = true := by
  cases h : t.isDisposed <;> cases b <;> simp [disposeW, h]

/-- Dispose on an already-disposed wiring is the identity (source guard
at lines 169-171). -/
theorem disposeW_of_disposed (b : Bool) (s : Wire) (h : s.isDisposed = true) :
    disposeW b s = s := by
  simp [disposeW, h]

/-- The instance-record dispose always leaves the flag set. -/
theorem dispose_flag (t : TerminalInstance) :
    (t.dispose).isDisposed = true := by
  cases h : t.isDisposed <;> simp [TerminalInstance.dispose, h]

/-! ## Claims -/

/-- C1: the spec claims the 500ms escalation timer armed by `dispose` is
cancelled when process-exit is detected before it fires, so a process
that exits first receives no forced-termination signal.  In the source
the comment at lines 205-206 states the timeout will be cleared when the
process exits, but `killTimeout` is a local variable and no `clearTimeout`
call exists anywhere: after `dispose` sends SIGTERM, a process exit
before the 500ms deadline leaves the timer armed, and the timer fire
still delivers SIGKILL — the exited process still receives the forced
kill, contradicting the claim and the code's own comment. -/
theorem C1_escalation_timer_never_cancelled :
    (ptyExitW (disposeW false initialWire)).timerArmed = true ∧
    (timerFireW (ptyExitW (disposeW false initialWire))).kills
      = [Sig.sigterm, Sig.sigkill] := by decide

/-- C2: at most one disposal sequence ever executes per instance.
Re-entering `dispose` on a disposed wiring is the identity; `dispose`
after `dispose` changes nothing for any interleaving flags; and once
disposed, neither a pty exit, a pty error, nor a `closeTerminal` call
adds a `terminal-exit` or `terminal-error` notification. -/
theorem C2_single_disposal (b b2 : Bool) (s t : Wire)
    (h : s.isDisposed = true) :
    disposeW b s = s ∧
    disposeW b2 (disposeW b t) = disposeW b t ∧
    countExit (ptyExitW s) = countExit s ∧
    countError (ptyErrorW s) = countError s ∧
    countExit ((closeTerminalW b s).1) = countExit s ∧
    countError ((closeTerminalW b s).1) = countError s := by
  refine ⟨disposeW_of_disposed b s h,
          disposeW_of_disposed b2 _ (disposeW_isDisposed b t), ?_, ?_, ?_, ?_⟩
  · simp [ptyExitW, h]
  · simp [ptyErrorW, h]
  · by_cases hr : s.inRegistry = true
    · simp [closeTerminalW, hr, disposeW_of_disposed b s h, countExit,
        List.countP_append]
    · simp [closeTerminalW, Bool.not_eq_true] at hr ⊢
      simp [hr]
  · by_cases hr : s.inRegistry = true
    · simp [closeTerminalW, hr, disposeW_of_disposed b s h, countError,
        List.countP_append]
    · simp [closeTerminalW, Bool.not_eq_true] at hr ⊢
      simp [hr]

/-- Witness for C2 at the concrete disposed state `sampleDisposedWire`. -/
theorem C2_single_disposal_witness :
    disposeW false sampleDisposedWire = sampleDisposedWire ∧
    disposeW true (disposeW false initialWire) = disposeW false initialWire ∧
    countExit (ptyExitW sampleDisposedWire) = countExit sampleDisposedWire ∧
    countError (ptyErrorW sampleDisposedWire) = countError sampleDisposedWire ∧
    countExit ((closeTerminalW false sampleDisposedWire).1)
      = countExit sampleDisposedWire ∧
    countError ((closeTerminalW false sampleDisposedWire).1)
      = countError sampleDisposedWire :=
  C2_single_disposal false true sampleDisposedWire initialWire (by decide)

/-- C3 counterexample: the claim says `terminal-exit` is emitted exactly
once per id on every retiring path, including explicit `closeTerminal`
followed by process exit.  On that path the source emits it zero times:
`closeTerminal` runs `dispose`, which detaches the service forwarders
(Step 1) and the pty `onExit` subscription (Step 3) before the process
exits, so the later exit produces no `terminal-exit` event at all. -/
theorem C3_counterexample :
    countExit (ptyExitW ((closeTerminalW false initialWire).1)) = 0 ∧
    ¬ countExit (ptyExitW ((closeTerminalW false initialWire).1)) = 1 := by
  decide

/-- C3 amended: on the natural process-exit path `terminal-exit` is
emitted exactly once for the id, and stays at one across the queued
self-dispose, a duplicate pty exit, and the escalation-timer fire; on
the explicit `closeTerminal` path the forwarders are detached before the
process exits, so `terminal-exit` is emitted zero times for that id —
overall at most once per id, exactly once only on the natural path. -/
theorem C3_exit_once_natural_zero_after_close :
    countExit (ptyExitW initialWire) = 1 ∧
    countExit (runPendingW false (ptyExitW initialWire)) = 1 ∧
    countExit (ptyExitW (runPendingW false (ptyExitW initialWire))) = 1 ∧
    countExit (timerFireW (runPendingW false (ptyExitW initialWire))) = 1 ∧
    countExit (ptyExitW ((closeTerminalW false initialWire).1)) = 0 ∧
    countExit (runPendingW false
      (ptyExitW ((closeTerminalW false initialWire).1))) = 0 := by
  decide

end TerminalModel

namespace TerminalModel

/-- C4: for a registered id, `closeTerminal` returns true and the
registry no longer contains the id in the very state `closeTerminal`
returns (synchronous removal, no waiting on process exit); the found
instance's dispose leaves it disposed; for an unregistered id the call
returns false and changes nothing; and after a successful close no pty
data event ever produces another `terminal-data` for that id. -/
theorem C4_closeTerminal (svc : Service) (terminalId : Nat)
    (inst : TerminalInstance)
    (h : svc.getTerminal terminalId = some inst) :
    (svc.closeTerminal terminalId).2 = true ∧
    ((svc.closeTerminal terminalId).1).getTerminal terminalId = none ∧
    (inst.dispose).isDisposed = true ∧
    (∀ j, svc.getTerminal j = none → svc.closeTerminal j = (svc, false)) ∧
    (∀ d, ptyDataW d ((closeTerminalW false initialWire).1)
        = (closeTerminalW false initialWire).1) := by
  have hf : ∃ q, svc.terminals.find? (fun p => p.1 = terminalId) = some q := by
    unfold Service.getTerminal at h
    cases hq : svc.terminals.find? (fun p => p.1 = terminalId) with
    | none => rw [hq] at h; simp at h
    | some q => exact ⟨q, rfl⟩
  obtain ⟨q, hq⟩ := hf
  refine ⟨?_, ?_, dispose_flag inst, ?_, ?_⟩
  · simp [Service.closeTerminal, hq]
  · simp only [Service.closeTerminal, hq, Service.getTerminal]
    have : (svc.terminals.filter (fun p => !(p.1 = terminalId))).find?
        (fun p => p.1 = terminalId) = none := by
      rw [List.find?_eq_none]
      intro x hx
      have := List.of_mem_filter hx
      simpa using this
    simp [this]
  · intro j hj
    unfold Service.getTerminal at hj
    cases hj2 : svc.terminals.find? (fun p => p.1 = j) with
    | none => simp [Service.closeTerminal, hj2]
    | some q2 => rw [hj2] at hj; simp at hj
  · intro d
    rfl

/-- Witness for C4 at the concrete one-terminal service `sampleSvc`. -/
theorem C4_closeTerminal_witness :
    (sampleSvc.closeTerminal 1).2 = true ∧
    ((sampleSvc.closeTerminal 1).1).getTerminal 1 = none ∧
    (sampleInst.dispose).isDisposed = true ∧
    (∀ j, sampleSvc.getTerminal j = none →
        sampleSvc.closeTerminal j = (sampleSvc, false)) ∧
    (∀ d, ptyDataW d ((closeTerminalW false initialWire).1)
        = (closeTerminalW false initialWire).1) :=
  C4_closeTerminal sampleSvc 1 sampleInst (by decide)

/-- C5 counterexample: the claim says the persisted descriptor
deliberately excludes the terminal's id — the descriptor could then not
depend on the id.  In the source `getState` returns
`{id: this._id, shellProfile, cwd, cols, rows}` (line 157), so two
instances differing only in their id produce different descriptors. -/
theorem C5_counterexample :
    TerminalInstance.getState
        { id := 1, ptyPresent := true, shellProfile := none,
          cwd := "/home/u", cols := 80, rows := 30, isDisposed := false } ≠
      TerminalInstance.getState
        { id := 2, ptyPresent := true, shellProfile := none,
          cwd := "/home/u", cols := 80, rows := 30, isDisposed := false } := by
  decide

/-- C5 amended: the persisted descriptor carries the spec's four fields
(profile name under the key `shellProfile`, cwd, cols, rows) but ALSO
includes the terminal's id; dropping that extra id yields exactly the
spec's shape.  The snapshot layout `{terminals, config}` — one
descriptor per registered terminal plus the config — holds as stated. -/
theorem C5_descriptor_includes_id (t : TerminalInstance) (svc : Service) :
    (t.getState).id = t.id ∧
    (t.getState).toSpecShape =
      { shellProfileName := (t.getState).shellProfile, cwd := t.cwd,
        cols := t.cols, rows := t.rows } ∧
    (svc.getTerminalState).terminals
      = svc.terminals.map (fun p => p.2.getState) ∧
    (svc.getTerminalState).config = svc.config := by
  refine ⟨rfl, ?_, rfl, rfl⟩
  simp [TermState.toSpecShape, TerminalInstance.getState]

/-- C6 counterexample: the claim says a failing pty resize leaves the
stored dimensions unchanged.  In the source `resize` assigns
`this._cols`/`this._rows` (lines 135-136) BEFORE calling
`this._pty.resize` (line 137) inside the same `try`, so when the pty
resize throws, the stored dimensions already hold the new values:
resizing the live 80×30 instance to 100×50 with a throwing pty leaves
cols = 100, rows = 50, not 80 and 30. -/
theorem C6_counterexample :
    ¬ (((sampleInst.resize 100 50 true false).1).cols = 80 ∧
       ((sampleInst.resize 100 50 true false).1).rows = 30) := by
  decide

/-- C6 amended: on a live instance `resize` stores the new dimensions
unconditionally, before attempting the pty resize; when the pty resize
throws the stored dimensions keep the new values, an error notification
is emitted, and for a broken-channel error an asynchronous self-dispose
is scheduled. -/
theorem C6_resize_stores_dims_before_pty (t : TerminalInstance)
    (c r : Nat) (rt bc : Bool)
    (h1 : t.isDisposed = false) (h2 : t.ptyPresent = true) :
    ((t.resize c r rt bc).1).cols = c ∧
    ((t.resize c r rt bc).1).rows = r ∧
    (t.resize c r true bc).2.1 = true ∧
    (t.resize c r true true).2.2 = true := by
  cases rt <;> simp [TerminalInstance.resize, h1, h2]

/-- Witness for C6 at the concrete live instance `sampleInst`. -/
theorem C6_resize_witness :
    ((sampleInst.resize 100 50 true false).1).cols = 100 ∧
    ((sampleInst.resize 100 50 true false).1).rows = 50 ∧
    (sampleInst.resize 100 50 true false).2.1 = true ∧
    (sampleInst.resize 100 50 true true).2.2 = true :=
  C6_resize_stores_dims_before_pty sampleInst 100 50 true false
    (by decide) (by decide)

/-- C8: on a disposed instance both `write` and `resize` hit the guard
at lines 106-108 / 130-132 and return immediately: the call returns
normally, no error notification is emitted, no self-dispose is
scheduled, and the instance state — dimensions, disposed flag, process
handle — is returned unchanged, for every payload and every behaviour
of the underlying pty. -/
theorem C8_disposed_write_resize_noop (t : TerminalInstance) (d : String)
    (c r : Nat) (wt bc : Bool) (h : t.isDisposed = true) :
    t.write d wt bc = (t, false, false) ∧
    t.resize c r wt bc = (t, false, false) := by
  constructor <;> simp [TerminalInstance.write, TerminalInstance.resize, h]

/-- Witness for C8 at the concrete disposed instance. -/
theorem C8_disposed_noop_witness :
    sampleDisposedInst.write "echo hi" true true
        = (sampleDisposedInst, false, false) ∧
    sampleDisposedInst.resize 100 50 true true
        = (sampleDisposedInst, false, false) :=
  C8_disposed_write_resize_noop sampleDisposedInst "echo hi" 100 50 true true
    (by decide)

end TerminalModel

namespace TerminalModel

/-! ## Helper lemmas about the registry counter -/

/-- Every `createTerminal` call advances the id counter by one, whether
or not the spawn throws (line 311 runs before the spawn). -/
theorem createTerminal_nextId (svc : Service) (env : Env) (st : Bool)
    (pn cwd : Option String) :
    ((svc.createTerminal env st pn cwd).1).nextTerminalId
      = svc.nextTerminalId + 1 := by
  cases st <;> simp [Service.createTerminal]

/-- Closing a terminal never touches the id counter. -/
theorem closeTerminal_nextId (svc : Service) (terminalId : Nat) :
    ((svc.closeTerminal terminalId).1).nextTerminalId
      = svc.nextTerminalId := by
  unfold Service.closeTerminal
  cases svc.terminals.find? (fun p => p.1 = terminalId) <;> simp

/-- Every id assigned during a run of operations is at least the
counter value the run started from. -/
theorem runOps_ids_lb (env : Env) (ops : List SvcOp) :
    ∀ svc : Service, ∀ i ∈ (svc.runOps env ops).2,
      svc.nextTerminalId ≤ i := by
  induction ops with
  | nil => intro svc i hi; simp [Service.runOps] at hi
  | cons op rest ih =>
    intro svc i hi
    cases op with
    | create st =>
      simp only [Service.runOps, List.mem_cons] at hi
      rcases hi with h | h
      · omega
      · have := ih _ i h
        rw [createTerminal_nextId] at this
        omega
    | close terminalId =>
      simp only [Service.runOps] at hi
      have := ih _ i hi
      rw [closeTerminal_nextId] at this
      omega

/-- The ids assigned during a run of operations are strictly
increasing. -/
theorem runOps_ids_chain (env : Env) (ops : List SvcOp) :
    ∀ svc : Service, List.Chain' (· < ·) (svc.runOps env ops).2 := by
  induction ops with
  | nil => intro svc; simp [Service.runOps]
  | cons op rest ih =>
    intro svc
    cases op with
    | create st =>
      simp only [Service.runOps]
      refine List.chain'_cons'.mpr ⟨?_, ih _⟩
      intro y hy
      have hmem : y ∈ (((svc.createTerminal env st none none).1).runOps
          env rest).2 := List.mem_of_mem_head? hy
      have := runOps_ids_lb env rest _ y hmem
      rw [createTerminal_nextId] at this
      omega
    | close terminalId =>
      simp only [Service.runOps]
      exact ih _

/-- C7: over every interleaving of `createTerminal` calls (spawns
succeeding or throwing) and `closeTerminal` calls, the ids assigned to
the create calls are strictly increasing in creation order, hence
pairwise distinct; and a close never moves the id counter, so a closed
terminal's id can never be handed to a later creation. -/
theorem C7_ids_monotone_never_reused (env : Env) (svc : Service)
    (ops : List SvcOp) (terminalId : Nat) :
    List.Chain' (· < ·) (svc.runOps env ops).2 ∧
    List.Pairwise (· ≠ ·) (svc.runOps env ops).2 ∧
    ((svc.closeTerminal terminalId).1).nextTerminalId
      = svc.nextTerminalId := by
  have hchain := runOps_ids_chain env ops svc
  have hpw : List.Pairwise (· < ·) (svc.runOps env ops).2 :=
    (List.chain'_iff_pairwise).mp hchain
  exact ⟨hchain, hpw.imp Nat.ne_of_lt, closeTerminal_nextId svc terminalId⟩

/-! ## Helper lemmas about restoration -/

/-- Registry growth of one `createTerminal` call: unchanged on a
throwing spawn, one appended entry on success. -/
theorem createTerminal_terminals_len (svc : Service) (env : Env)
    (st : Bool) (pn cwd : Option String) :
    ((svc.createTerminal env st pn cwd).1).terminals.length
      = svc.terminals.length + (if st then 0 else 1) := by
  cases st <;> simp [Service.createTerminal]

/-- Folding the restore loop over a descriptor list adds exactly one
registry entry per non-throwing descriptor. -/
theorem restore_foldl_len (env : Env) (descs : List (TermState × Bool)) :
    ∀ svc : Service,
      (descs.foldl (fun acc d =>
          (acc.createTerminal env d.2 d.1.shellProfile (some d.1.cwd)).1)
        svc).terminals.length
        = svc.terminals.length + descs.countP (fun d => !d.2) := by
  induction descs with
  | nil => intro svc; simp
  | cons d rest ih =>
    intro svc
    simp only [List.foldl_cons, List.countP_cons]
    rw [ih, createTerminal_terminals_len]
    cases hd : d.2 <;> (simp; try omega)

/-- Folding the restore loop consumes one fresh id per descriptor,
throwing or not: every descriptor becomes its own `createTerminal`
call. -/
theorem restore_foldl_nextId (env : Env) (descs : List (TermState × Bool)) :
    ∀ svc : Service,
      (descs.foldl (fun acc d =>
          (acc.createTerminal env d.2 d.1.shellProfile (some d.1.cwd)).1)
        svc).nextTerminalId
        = svc.nextTerminalId + descs.length := by
  induction descs with
  | nil => intro svc; simp
  | cons d rest ih =>
    intro svc
    simp only [List.foldl_cons, List.length_cons]
    rw [ih, createTerminal_nextId]
    omega

/-- C9: restoring a snapshot recreates each descriptor through its own
fresh `createTerminal` call (the id counter advances once per
descriptor), a throwing descriptor is skipped while every other
descriptor still restores (the registry grows by exactly the number of
non-throwing descriptors), and in particular restoring 4 valid
descriptors and 1 malformed one into an empty service recreates exactly
4 terminals. -/
theorem C9_restore_skips_bad_descriptor (env : Env) (svc : Service)
    (descs : List (TermState × Bool)) (cfg : Option Config) :
    (svc.restoreTerminals env
        (some { terminals := some descs, config := cfg })).terminals.length
      = svc.terminals.length + descs.countP (fun d => !d.2) ∧
    (svc.restoreTerminals env
        (some { terminals := some descs, config := cfg })).nextTerminalId
      = svc.nextTerminalId + descs.length ∧
    (Service.restoreTerminals (Service.mk [] 1 []) sampleEnv
        (some (RestoreInput.mk
          (some [(sampleDesc, false), (sampleDesc, false),
            (sampleDesc, true), (sampleDesc, false), (sampleDesc, false)])
          none))).terminals.length = 4 := by
  refine ⟨?_, ?_, by decide⟩ <;>
    cases cfg <;>
      simp [Service.restoreTerminals, restore_foldl_len, restore_foldl_nextId]

/-- C10: a `createTerminal` call whose spawn throws propagates the
failure to the caller (no id is returned), registers nothing, but has
already advanced the id counter; consequently in a
success-throw-success sequence the second successful creation's id
exceeds the first's by two, more than one. -/
theorem C10_failed_spawn_consumes_id (env : Env) (svc : Service)
    (pn cwd : Option String) :
    (svc.createTerminal env true pn cwd).2 = none ∧
    ((svc.createTerminal env true pn cwd).1).terminals = svc.terminals ∧
    ((svc.createTerminal env true pn cwd).1).nextTerminalId
      = svc.nextTerminalId + 1 ∧
    (svc.createTerminal env false pn cwd).2 = some svc.nextTerminalId ∧
    (((((svc.createTerminal env false pn cwd).1).createTerminal
          env true pn cwd).1).createTerminal env false pn cwd).2
      = some (svc.nextTerminalId + 2) ∧
    svc.nextTerminalId + 1 < svc.nextTerminalId + 2 := by
  refine ⟨?_, ?_, ?_, ?_, ?_, by omega⟩ <;>
    simp [Service.createTerminal]

end TerminalModel
